import Mathlib

set_option maxRecDepth 1000000

/-!
Verification of the AES-CTR stream cipher construction of this repository.

The repository's source tree provides the public tests and usage examples
of `Aes128Ctr` (`src/aes-ctr/src/lib.rs`, `src/aes-ctr/aes-ctr-compat/src/lib.rs`);
the counter-state engine and keystream applier they exercise live outside the
provided sources, so they are modelled here from the specification: a 128-bit
big-endian counter seeded from the nonce, a byte cursor, keystream block
`E ((counter0 + cursor / 16) mod 2^128)` and byte-wise XOR application.
The block-cipher backend (AES-128) is out of scope in the specification and is
modelled from FIPS-197 so that the repository's concrete test vectors can be
evaluated.
-/

namespace StreamCiphers

/-- Modelled from the spec: the AES S-box of the block-cipher backend
(FIPS-197, Fig. 7), as a table of 256 byte values. -/
def sbox : List Nat :=
  [99, 124, 119, 123, 242, 107, 111, 197, 48, 1, 103, 43, 254, 215, 171, 118,
  202, 130, 201, 125, 250, 89, 71, 240, 173, 212, 162, 175, 156, 164, 114, 192,
  183, 253, 147, 38, 54, 63, 247, 204, 52, 165, 229, 241, 113, 216, 49, 21,
  4, 199, 35, 195, 24, 150, 5, 154, 7, 18, 128, 226, 235, 39, 178, 117,
  9, 131, 44, 26, 27, 110, 90, 160, 82, 59, 214, 179, 41, 227, 47, 132,
  83, 209, 0, 237, 32, 252, 177, 91, 106, 203, 190, 57, 74, 76, 88, 207,
  208, 239, 170, 251, 67, 77, 51, 133, 69, 249, 2, 127, 80, 60, 159, 168,
  81, 163, 64, 143, 146, 157, 56, 245, 188, 182, 218, 33, 16, 255, 243, 210,
  205, 12, 19, 236, 95, 151, 68, 23, 196, 167, 126, 61, 100, 93, 25, 115,
  96, 129, 79, 220, 34, 42, 144, 136, 70, 238, 184, 20, 222, 94, 11, 219,
  224, 50, 58, 10, 73, 6, 36, 92, 194, 211, 172, 98, 145, 149, 228, 121,
  231, 200, 55, 109, 141, 213, 78, 169, 108, 86, 244, 234, 101, 122, 174, 8,
  186, 120, 37, 46, 28, 166, 180, 198, 232, 221, 116, 31, 75, 189, 139, 138,
  112, 62, 181, 102, 72, 3, 246, 14, 97, 53, 87, 185, 134, 193, 29, 158,
  225, 248, 152, 17, 105, 217, 142, 148, 155, 30, 135, 233, 206, 85, 40, 223,
  140, 161, 137, 13, 191, 230, 66, 104, 65, 153, 45, 15, 176, 84, 187, 22]

/-- The S-box packed into one natural number, base 256, least index first;
entry `b` is digit `b`. -/
def sboxNat : Nat := sbox.foldr (fun b acc => b + 256 * acc) 0

/-- S-box lookup of a byte value, read off the packed table. -/
def sboxAt (b : Nat) : Nat := sboxNat / 256 ^ b % 256

/-- Multiplication by x in GF(2^8) with the AES reduction polynomial. -/
def xtime (b : Nat) : Nat :=
  let s := 2 * b
  if s < 256 then s else Nat.xor (s - 256) 27

/-- Multiplication by 3 in GF(2^8). -/
def mul3 (b : Nat) : Nat := Nat.xor (xtime b) b

/-- AES SubBytes on a 16-byte state. -/
def subBytes (s : List Nat) : List Nat := s.map sboxAt

/-- AES ShiftRows on a 16-byte state held in column-major order
(byte index 4*c + r), as a fixed permutation. -/
def shiftRows (s : List Nat) : List Nat :=
  match s with
  | [a0, a1, a2, a3, a4, a5, a6, a7, a8, a9, a10, a11, a12, a13, a14, a15] =>
    [a0, a5, a10, a15, a4, a9, a14, a3, a8, a13, a2, a7, a12, a1, a6, a11]
  | l => l

/-- AES MixColumns on one 4-byte column. -/
def mixColumn (a b c d : Nat) : List Nat :=
  [Nat.xor (Nat.xor (xtime a) (mul3 b)) (Nat.xor c d),
   Nat.xor (Nat.xor a (xtime b)) (Nat.xor (mul3 c) d),
   Nat.xor (Nat.xor a b) (Nat.xor (xtime c) (mul3 d)),
   Nat.xor (Nat.xor (mul3 a) b) (Nat.xor c (xtime d))]

/-- AES MixColumns on a 16-byte state in column-major order. -/
def mixColumns (s : List Nat) : List Nat :=
  match s with
  | [a0, a1, a2, a3, a4, a5, a6, a7, a8, a9, a10, a11, a12, a13, a14, a15] =>
    mixColumn a0 a1 a2 a3 ++ mixColumn a4 a5 a6 a7 ++
      mixColumn a8 a9 a10 a11 ++ mixColumn a12 a13 a14 a15
  | l => l

/-- Byte-wise XOR of two byte lists. -/
def xorBytes (xs ys : List Nat) : List Nat := List.zipWith Nat.xor xs ys

/-- AES round constants (first bytes of the rcon words). -/
def rcon : List Nat := [1, 2, 4, 8, 16, 32, 64, 128, 27, 54]

/-- One step of the AES-128 key expansion: given the list of words produced
so far, append the next word. -/
def nextKeyWord (ws : List (List Nat)) : List (List Nat) :=
  let i := ws.length
  let prev1 := ws.getD (i - 1) []
  let prev4 := ws.getD (i - 4) []
  let t :=
    if i % 4 = 0 then
      match prev1 with
      | [b0, b1, b2, b3] =>
        [Nat.xor (sboxAt b1) (rcon.getD (i / 4 - 1) 0), sboxAt b2, sboxAt b3, sboxAt b0]
      | l => l
    else prev1
  ws ++ [xorBytes prev4 t]

/-- Iterate the key-expansion step `n` times. -/
def expandWords : Nat → List (List Nat) → List (List Nat)
  | 0, ws => ws
  | n + 1, ws => expandWords n (nextKeyWord ws)

/-- AES-128 key schedule: the 44 four-byte words w0..w43 of FIPS-197. -/
def keyWords (key : List Nat) : List (List Nat) :=
  expandWords 40
    [key.take 4, (key.drop 4).take 4, (key.drop 8).take 4, (key.drop 12).take 4]

/-- Round key `r` (16 bytes) from an expanded word list. -/
def roundKeyOf (ws : List (List Nat)) (r : Nat) : List Nat :=
  ws.getD (4 * r) [] ++ ws.getD (4 * r + 1) [] ++ ws.getD (4 * r + 2) [] ++
    ws.getD (4 * r + 3) []

/-- Modelled from the spec: the block-cipher backend capability
`encrypt_block(key_context, input) -> [u8; 16]`, instantiated with AES-128
block encryption per FIPS-197 (10 rounds). -/
def aes128EncryptBlock (key block : List Nat) : List Nat :=
  let ws := keyWords key
  let s0 := xorBytes block (roundKeyOf ws 0)
  let s9 := (List.range 9).foldl
    (fun s r => xorBytes (mixColumns (shiftRows (subBytes s))) (roundKeyOf ws (r + 1))) s0
  xorBytes (shiftRows (subBytes s9)) (roundKeyOf ws 10)

/-- Big-endian interpretation of a byte list as a natural number. -/
def beVal (bytes : List Nat) : Nat :=
  bytes.foldl (fun acc b => 256 * acc + b) 0

/-- The 16 big-endian bytes of a 128-bit counter value. -/
def toBE16 (n : Nat) : List Nat :=
  (List.range 16).map (fun i => n / 256 ^ (15 - i) % 256)

/-- The counter modulus: counters live modulo 2^128. -/
def ctrModulus : Nat := 2 ^ 128

/-- Modelled from the spec: counter increment, performed modulo 2^128. -/
def incCounter (n : Nat) : Nat := (n + 1) % ctrModulus

/-- Modelled from the spec: the mutable state of a cipher instance, the
counter-state engine's initial 128-bit counter (seeded from the nonce) and
the logical byte cursor into the keystream. The key is carried separately
as the block-cipher backend capability. -/
structure CtrCipher where
  counter0 : Nat
  cursor : Nat
deriving DecidableEq

/-- Modelled from the spec: the counter value active at the current cursor,
`(initial_counter + floor(cursor / 16)) mod 2^128`. -/
def counterAt (c : CtrCipher) : Nat := (c.counter0 + c.cursor / 16) % ctrModulus

/-- Modelled from the spec: `current_block()`, the encryption of the active
counter value under the block-cipher backend `E`. -/
def currentBlock (E : List Nat → List Nat) (c : CtrCipher) : List Nat :=
  E (toBE16 (counterAt c))

/-- Keystream byte at absolute position `pos` for initial counter `n0`:
byte `pos % 16` of the encryption of counter `(n0 + pos / 16) mod 2^128`. -/
def ksByte (E : List Nat → List Nat) (n0 pos : Nat) : Nat :=
  (E (toBE16 ((n0 + pos / 16) % ctrModulus))).getD (pos % 16) 0

/-- XOR a buffer against the keystream starting at position `pos`,
one byte at a time. -/
def xorFrom (E : List Nat → List Nat) (n0 : Nat) : Nat → List Nat → List Nat
  | _, [] => []
  | pos, b :: bs => Nat.xor b (ksByte E n0 pos) :: xorFrom E n0 (pos + 1) bs

/-- Modelled from the spec: `apply_keystream` — XOR each buffer byte with the
keystream byte at the current cursor, advancing the cursor by one per byte;
returns the transformed buffer and the updated cipher state. -/
def applyKeystream (E : List Nat → List Nat) (c : CtrCipher) (buf : List Nat) :
    List Nat × CtrCipher :=
  (xorFrom E c.counter0 c.cursor buf, ⟨c.counter0, c.cursor + buf.length⟩)

/-- Modelled from the spec: `seek(byte_offset)` sets the cursor absolutely. -/
def seekTo (c : CtrCipher) (n : Nat) : CtrCipher := ⟨c.counter0, n⟩

/-- Modelled from the spec: construction seeds counter = big-endian
interpretation of the nonce bytes and cursor = 0. -/
def newCipher (nonce : List Nat) : CtrCipher := ⟨beVal nonce, 0⟩

/-- Modelled from the spec: the construction-time error of `new_var`. -/
inductive InitError where
  | invalidLength
deriving DecidableEq

/-- Modelled from the spec: `new_var(key, nonce)` for the `Aes128Ctr` variant —
succeeds exactly when the key is 16 bytes and the nonce is 16 bytes, and fails
atomically with an `InitError` otherwise (no truncation or padding). -/
def new_var (key nonce : List Nat) : Except InitError CtrCipher :=
  if key.length = 16 ∧ nonce.length = 16 then Except.ok (newCipher nonce)
  else Except.error InitError.invalidLength

/-- The `Aes128Ctr` block-cipher backend: AES-128 under the given key. -/
def aes128CtrE (key : List Nat) : List Nat → List Nat := aes128EncryptBlock key

/-- A public-API operation on a cipher instance (for stating that keystream
output depends only on the cursor reached, not the path of calls taken). -/
inductive CtrOp where
  | apply (buf : List Nat)
  | seek (n : Nat)
deriving DecidableEq

/-- Run one operation against the cipher state. -/
def runOp (E : List Nat → List Nat) (c : CtrCipher) : CtrOp → CtrCipher
  | CtrOp.apply buf => (applyKeystream E c buf).2
  | CtrOp.seek n => seekTo c n

/-- Run a sequence of operations against the cipher state. -/
def runOps (E : List Nat → List Nat) (c : CtrCipher) (ops : List CtrOp) : CtrCipher :=
  ops.foldl (runOp E) c

/-- Expected keystream of `compare_to_openssl_at_zero_nonce`
(src/aes-ctr/src/lib.rs): hex 66e94bd4...948bc1e0. -/
def zeroNonceExpected : List Nat :=
  [102, 233, 75, 212, 239, 138, 44, 59, 136, 76, 250, 89, 202, 52, 43, 46,
  88, 226, 252, 206, 250, 126, 48, 97, 54, 127, 29, 87, 164, 231, 69, 90,
  3, 136, 218, 206, 96, 182, 163, 146, 243, 40, 194, 185, 113, 178, 254, 120,
  247, 149, 170, 171, 73, 75, 89, 35, 247, 253, 137, 255, 148, 139, 193, 224]

/-- Expected keystream of `compare_to_openssl_near_64bit_be`
(src/aes-ctr/src/lib.rs): hex 99c5f4ae...5ebe1dfc. -/
def near64Expected : List Nat :=
  [153, 197, 244, 174, 5, 49, 238, 206, 124, 51, 218, 185, 141, 94, 40, 157,
  116, 124, 185, 38, 126, 89, 250, 158, 78, 97, 86, 104, 219, 9, 9, 188,
  120, 139, 205, 17, 30, 207, 115, 212, 231, 141, 46, 33, 190, 245, 84, 96,
  218, 172, 218, 247, 107, 12, 255, 192, 250, 20, 152, 163, 94, 190, 29, 252]

/-- Expected keystream of `compare_to_openssl_near_128bit_be`
(src/aes-ctr/src/lib.rs): hex 5c005e72...a4e7455a. -/
def near128Expected : List Nat :=
  [92, 0, 94, 114, 193, 65, 140, 68, 245, 105, 242, 234, 51, 186, 84, 243,
  63, 91, 140, 201, 234, 133, 90, 10, 250, 115, 71, 210, 62, 141, 102, 78,
  102, 233, 75, 212, 239, 138, 44, 59, 136, 76, 250, 89, 202, 52, 43, 46,
  88, 226, 252, 206, 250, 126, 48, 97, 54, 127, 29, 87, 164, 231, 69, 90]

/-- Key of `compare_to_openssl_with_poc_values` (src/aes-ctr/src/lib.rs):
hex 0dc1430e6954f687d8d828fb1a5477df. -/
def pocKey : List Nat :=
  [13, 193, 67, 14, 105, 84, 246, 135, 216, 216, 40, 251, 26, 84, 119, 223]

/-- Nonce of `compare_to_openssl_with_poc_values` (src/aes-ctr/src/lib.rs):
hex 1affffffffffffffffffffffffffffff. -/
def pocNonce : List Nat :=
  [26, 255, 255, 255, 255, 255, 255, 255, 255, 255, 255, 255, 255, 255, 255, 255]

/-- Plaintext of `compare_to_openssl_with_poc_values` (src/aes-ctr/src/lib.rs):
102 bytes, all 0xff except 0x07 at offset 60 and the tail ca 7c d8 00 at
offsets 98..101. -/
def pocData : List Nat :=
  [255, 255, 255, 255, 255, 255, 255, 255, 255, 255, 255, 255, 255, 255, 255, 255,
  255, 255, 255, 255, 255, 255, 255, 255, 255, 255, 255, 255, 255, 255, 255, 255,
  255, 255, 255, 255, 255, 255, 255, 255, 255, 255, 255, 255, 255, 255, 255, 255,
  255, 255, 255, 255, 255, 255, 255, 255, 255, 255, 255, 255, 7, 255, 255, 255,
  255, 255, 255, 255, 255, 255, 255, 255, 255, 255, 255, 255, 255, 255, 255, 255,
  255, 255, 255, 255, 255, 255, 255, 255, 255, 255, 255, 255, 255, 255, 255, 255,
  255, 255, 202, 124, 216, 0]

/-- Expected ciphertext of `compare_to_openssl_with_poc_values`
(src/aes-ctr/src/lib.rs): hex 6cfd499f...6858, 102 bytes. -/
def pocCiphertext : List Nat :=
  [108, 253, 73, 159, 41, 43, 94, 79, 15, 121, 128, 186, 135, 246, 194, 87,
  27, 222, 233, 216, 2, 74, 106, 79, 70, 239, 105, 93, 125, 169, 59, 243,
  171, 225, 15, 165, 102, 87, 79, 1, 31, 125, 151, 72, 199, 184, 71, 14,
  69, 200, 13, 5, 171, 26, 106, 86, 129, 55, 254, 219, 166, 51, 34, 105,
  154, 166, 12, 108, 239, 100, 153, 125, 229, 136, 86, 30, 233, 149, 169, 77,
  154, 25, 226, 107, 205, 53, 144, 233, 62, 225, 237, 218, 7, 246, 61, 146,
  31, 189, 212, 178, 104, 88]

/-- The plaintext as the specification describes it: 99 bytes of 0xff with a
single 0x07 byte at offset 94. -/
def specDescribedPlaintext : List Nat :=
  List.replicate 94 255 ++ [7] ++ List.replicate 4 255

/-- Key of the crate-level usage example (src/aes-ctr/src/lib.rs):
the bytes of the string literal used there. -/
def usageKey : List Nat :=
  [118, 101, 114, 121, 32, 115, 101, 99, 114, 101, 116, 32, 107, 101, 121, 46]

/-- Nonce of the crate-level usage example (src/aes-ctr/src/lib.rs):
the bytes of the string literal used there. -/
def usageNonce : List Nat :=
  [97, 110, 100, 32, 115, 101, 99, 114, 101, 116, 32, 110, 111, 110, 99, 101]

/-- The packed S-box lookup agrees with the tabulated S-box list at every
byte value. -/
theorem sboxAt_eq_table : ∀ b, b < 256 → sboxAt b = sbox.getD b 0 := by decide

/-- Applying the keystream does not change the buffer length. -/
theorem xorFrom_length (E : List Nat → List Nat) (n0 : Nat) :
    ∀ (p : Nat) (bs : List Nat), (xorFrom E n0 p bs).length = bs.length := by
  intro p bs
  induction bs generalizing p with
  | nil => rfl
  | cons b rest ih => simp [xorFrom, ih]

/-- XOR-ing against the same keystream segment twice restores the buffer. -/
theorem xorFrom_xorFrom (E : List Nat → List Nat) (n0 : Nat) :
    ∀ (p : Nat) (bs : List Nat), xorFrom E n0 p (xorFrom E n0 p bs) = bs := by
  intro p bs
  induction bs generalizing p with
  | nil => rfl
  | cons b rest ih =>
    show Nat.xor (Nat.xor b (ksByte E n0 p)) (ksByte E n0 p)
        :: xorFrom E n0 (p + 1) (xorFrom E n0 (p + 1) rest) = b :: rest
    rw [ih (p + 1)]
    exact congrArg (fun x => x :: rest) (Nat.xor_cancel_right (ksByte E n0 p) b)

/-- The keystream applied to a concatenation splits at the concatenation
point, with the position advanced by the first part's length. -/
theorem xorFrom_append (E : List Nat → List Nat) (n0 : Nat) :
    ∀ (p : Nat) (xs ys : List Nat),
      xorFrom E n0 p (xs ++ ys) = xorFrom E n0 p xs ++ xorFrom E n0 (p + xs.length) ys := by
  intro p xs ys
  induction xs generalizing p with
  | nil => simp [xorFrom]
  | cons b rest ih =>
    show Nat.xor b (ksByte E n0 p) :: xorFrom E n0 (p + 1) (rest ++ ys)
        = (Nat.xor b (ksByte E n0 p) :: xorFrom E n0 (p + 1) rest)
          ++ xorFrom E n0 (p + (b :: rest).length) ys
    rw [List.cons_append, ih (p + 1)]
    have h : p + 1 + rest.length = p + (b :: rest).length := by
      simp only [List.length_cons]
      omega
    rw [h]

/-- Running operations never changes the initial counter seeded from the
nonce. -/
theorem runOps_counter0 (E : List Nat → List Nat) :
    ∀ (ops : List CtrOp) (c : CtrCipher), (runOps E c ops).counter0 = c.counter0 := by
  intro ops
  induction ops with
  | nil => intro c; rfl
  | cons op rest ih =>
    intro c
    cases op with
    | apply buf => simp [runOps, runOp, applyKeystream] at ih ⊢; exact ih _
    | seek n => simp [runOps, runOp, seekTo] at ih ⊢; exact ih _

/-- Two cipher states with equal fields are equal. -/
theorem ctrCipher_eq (c1 c2 : CtrCipher)
    (h0 : c1.counter0 = c2.counter0) (h1 : c1.cursor = c2.cursor) : c1 = c2 := by
  cases c1
  cases c2
  simp_all

/-- C1: for every key, 16-byte nonce and plaintext `P` of any length,
`apply_keystream` (encrypt), then `seek(0)`, then `apply_keystream` on the
ciphertext yields exactly the original `P`. The block-cipher backend is
arbitrary (`BC key`), so this holds for every key. -/
theorem apply_seek0_apply_roundtrip (BC : List Nat → List Nat → List Nat)
    (key nonce P : List Nat) :
    (applyKeystream (BC key)
      (seekTo (applyKeystream (BC key) (newCipher nonce) P).2 0)
      (applyKeystream (BC key) (newCipher nonce) P).1).1 = P := by
  show xorFrom (BC key) (beVal nonce) 0 (xorFrom (BC key) (beVal nonce) 0 P) = P
  exact xorFrom_xorFrom (BC key) (beVal nonce) 0 P

/-- C8: `apply_keystream` on a 17-byte buffer gives the same output bytes and
the same final state as applying it to the first 16 bytes and then the
remaining 1 byte in two successive calls, for every key and nonce. -/
theorem apply_keystream_chunking (BC : List Nat → List Nat → List Nat)
    (key nonce buf : List Nat) (h : buf.length = 17) :
    (applyKeystream (BC key) (newCipher nonce) buf).1
      = (applyKeystream (BC key) (newCipher nonce) (buf.take 16)).1
        ++ (applyKeystream (BC key)
            (applyKeystream (BC key) (newCipher nonce) (buf.take 16)).2
            (buf.drop 16)).1
    ∧ (applyKeystream (BC key) (newCipher nonce) buf).2
      = (applyKeystream (BC key)
          (applyKeystream (BC key) (newCipher nonce) (buf.take 16)).2
          (buf.drop 16)).2 := by
  have hb : buf = buf.take 16 ++ buf.drop 16 := (List.take_append_drop 16 buf).symm
  constructor
  · show xorFrom (BC key) (beVal nonce) 0 buf
        = xorFrom (BC key) (beVal nonce) 0 (buf.take 16)
          ++ xorFrom (BC key) (beVal nonce) (0 + (buf.take 16).length) (buf.drop 16)
    conv_lhs => rw [hb]
    exact xorFrom_append (BC key) (beVal nonce) 0 (buf.take 16) (buf.drop 16)
  · apply ctrCipher_eq
    · rfl
    · show 0 + buf.length = 0 + (buf.take 16).length + (buf.drop 16).length
      simp [List.length_take, List.length_drop]
      omega

/-- C7: the keystream is a pure function of (key, nonce, cursor): two
instances with the same key and nonce brought to the same cursor by any
combination of `apply_keystream` and `seek` calls produce identical output on
any further buffer, and their current keystream blocks coincide. -/
theorem keystream_pure_function (BC : List Nat → List Nat → List Nat)
    (key nonce : List Nat) (ops1 ops2 : List CtrOp) (buf : List Nat)
    (h : (runOps (BC key) (newCipher nonce) ops1).cursor
        = (runOps (BC key) (newCipher nonce) ops2).cursor) :
    applyKeystream (BC key) (runOps (BC key) (newCipher nonce) ops1) buf
      = applyKeystream (BC key) (runOps (BC key) (newCipher nonce) ops2) buf
    ∧ currentBlock (BC key) (runOps (BC key) (newCipher nonce) ops1)
      = currentBlock (BC key) (runOps (BC key) (newCipher nonce) ops2) := by
  have hst : runOps (BC key) (newCipher nonce) ops1
      = runOps (BC key) (newCipher nonce) ops2 := by
    apply ctrCipher_eq
    · rw [runOps_counter0, runOps_counter0]
    · exact h
  rw [hst]
  exact ⟨rfl, rfl⟩

/-- C7 witness: two concrete instances, one sought to cursor 5 and one having
consumed a 5-byte buffer, agree on further output and on the current block. -/
theorem keystream_pure_function_witness :
    (runOps ((fun _ _ => []) ([] : List Nat)) (newCipher []) [CtrOp.seek 5]).cursor
      = (runOps ((fun _ _ => []) ([] : List Nat)) (newCipher []) [CtrOp.apply [9, 9, 9, 9, 9]]).cursor
    ∧ (applyKeystream ((fun _ _ => []) ([] : List Nat))
        (runOps ((fun _ _ => []) ([] : List Nat)) (newCipher []) [CtrOp.seek 5]) [1, 2, 3]
      = applyKeystream ((fun _ _ => []) ([] : List Nat))
        (runOps ((fun _ _ => []) ([] : List Nat)) (newCipher []) [CtrOp.apply [9, 9, 9, 9, 9]]) [1, 2, 3]
      ∧ currentBlock ((fun _ _ => []) ([] : List Nat))
          (runOps ((fun _ _ => []) ([] : List Nat)) (newCipher []) [CtrOp.seek 5])
        = currentBlock ((fun _ _ => []) ([] : List Nat))
          (runOps ((fun _ _ => []) ([] : List Nat)) (newCipher []) [CtrOp.apply [9, 9, 9, 9, 9]])) :=
  ⟨by decide,
   keystream_pure_function (fun _ _ => []) [] [] [CtrOp.seek 5] [CtrOp.apply [9, 9, 9, 9, 9]]
     [1, 2, 3] (by decide)⟩

/-- C8 witness: a concrete 17-byte buffer under a concrete backend. -/
theorem apply_keystream_chunking_witness :
    (List.range 17).length = 17
    ∧ ((applyKeystream ((fun _ _ => List.replicate 16 1) ([] : List Nat)) (newCipher [])
          (List.range 17)).1
        = (applyKeystream ((fun _ _ => List.replicate 16 1) ([] : List Nat)) (newCipher [])
            ((List.range 17).take 16)).1
          ++ (applyKeystream ((fun _ _ => List.replicate 16 1) ([] : List Nat))
              (applyKeystream ((fun _ _ => List.replicate 16 1) ([] : List Nat)) (newCipher [])
                ((List.range 17).take 16)).2
              ((List.range 17).drop 16)).1
      ∧ (applyKeystream ((fun _ _ => List.replicate 16 1) ([] : List Nat)) (newCipher [])
          (List.range 17)).2
        = (applyKeystream ((fun _ _ => List.replicate 16 1) ([] : List Nat))
            (applyKeystream ((fun _ _ => List.replicate 16 1) ([] : List Nat)) (newCipher [])
              ((List.range 17).take 16)).2
            ((List.range 17).drop 16)).2) :=
  ⟨by decide,
   apply_keystream_chunking (fun _ _ => List.replicate 16 1) [] [] (List.range 17) (by decide)⟩

/-- C6: for a 16-byte key, `new_var` fails with an `InitError` exactly when the
nonce length is unsupported (not 16 bytes), and on success the produced cipher
seeds its counter from the big-endian value of the entire nonce — never a
truncated or padded one. Failure produces no cipher (the `Except` is an
error). -/
theorem new_var_init_error_iff (key nonce : List Nat) (hk : key.length = 16) :
    (new_var key nonce = Except.error InitError.invalidLength ↔ nonce.length ≠ 16)
    ∧ (nonce.length = 16 →
        new_var key nonce = Except.ok (newCipher nonce)
        ∧ (newCipher nonce).counter0 = beVal nonce) := by
  by_cases hn : nonce.length = 16 <;> simp [new_var, hk, hn, newCipher]

/-- C6 witness: a 3-byte nonce is rejected with `InitError` under a 16-byte
key. -/
theorem new_var_init_error_iff_witness :
    (List.replicate 16 (0 : Nat)).length = 16
    ∧ new_var (List.replicate 16 0) [1, 2, 3] = Except.error InitError.invalidLength :=
  ⟨by decide,
   (new_var_init_error_iff (List.replicate 16 0) [1, 2, 3] (by decide)).1.mpr (by decide)⟩

/-- C10: `new_var` always succeeds when the key is 16 bytes and the nonce is
exactly 16 bytes, returning the cipher seeded from that nonce. -/
theorem new_var_ok_on_16_byte_nonce (key nonce : List Nat)
    (hk : key.length = 16) (hn : nonce.length = 16) :
    new_var key nonce = Except.ok (newCipher nonce) := by
  simp [new_var, hk, hn]

/-- C10 witness: the all-zero 16-byte key and nonce construct successfully. -/
theorem new_var_ok_on_16_byte_nonce_witness :
    (List.replicate 16 (0 : Nat)).length = 16
    ∧ (List.replicate 16 (1 : Nat)).length = 16
    ∧ new_var (List.replicate 16 0) (List.replicate 16 1)
        = Except.ok (newCipher (List.replicate 16 1)) :=
  ⟨by decide, by decide,
   new_var_ok_on_16_byte_nonce (List.replicate 16 0) (List.replicate 16 1)
     (by decide) (by decide)⟩

/-- C2: counter arithmetic wraps at exactly 2^128 — incrementing 2^128 - 1
yields 0 — and the cipher seeded with nonce = big-endian bytes of
u128::MAX - 1 produces as its third and fourth keystream blocks the
encryptions of the wrapped counter values 0 and 1, for every backend; with
the AES-128 backend under the zero key its 64-byte keystream is exactly the
fixture of `compare_to_openssl_near_128bit_be`. -/
theorem counter_wraps_at_128_bits :
    incCounter (2 ^ 128 - 1) = 0
    ∧ (∀ E : List Nat → List Nat,
        currentBlock E (seekTo (newCipher (toBE16 (2 ^ 128 - 2))) 32) = E (toBE16 0)
        ∧ currentBlock E (seekTo (newCipher (toBE16 (2 ^ 128 - 2))) 48) = E (toBE16 1))
    ∧ (applyKeystream (aes128CtrE (List.replicate 16 0)) (newCipher (toBE16 (2 ^ 128 - 2)))
        (List.replicate 64 0)).1 = near128Expected := by
  refine ⟨by decide, fun E => ⟨?_, ?_⟩, by decide⟩
  · exact congrArg (fun n => E (toBE16 n))
      (by decide : counterAt (seekTo (newCipher (toBE16 (2 ^ 128 - 2))) 32) = 0)
  · exact congrArg (fun n => E (toBE16 n))
      (by decide : counterAt (seekTo (newCipher (toBE16 (2 ^ 128 - 2))) 48) = 1)

/-- C3: with nonce = big-endian bytes of u64::MAX - 1 the increment carries
into the high 64 bits instead of wrapping at a 64-bit boundary: the third
keystream block's counter is exactly 2^64 (high half 1, low half 0 — not a
premature wrap to 0) and the fourth is 2^64 + 1, for every backend; with the
AES-128 backend under the zero key the 64-byte keystream is exactly the
fixture of `compare_to_openssl_near_64bit_be`. -/
theorem counter_carries_past_64_bits :
    (∀ E : List Nat → List Nat,
        currentBlock E (seekTo (newCipher (toBE16 (2 ^ 64 - 2))) 32) = E (toBE16 (2 ^ 64))
        ∧ currentBlock E (seekTo (newCipher (toBE16 (2 ^ 64 - 2))) 48) = E (toBE16 (2 ^ 64 + 1)))
    ∧ counterAt (seekTo (newCipher (toBE16 (2 ^ 64 - 2))) 32) / 2 ^ 64 = 1
    ∧ counterAt (seekTo (newCipher (toBE16 (2 ^ 64 - 2))) 32) % 2 ^ 64 = 0
    ∧ (applyKeystream (aes128CtrE (List.replicate 16 0)) (newCipher (toBE16 (2 ^ 64 - 2)))
        (List.replicate 64 0)).1 = near64Expected := by
  refine ⟨fun E => ⟨?_, ?_⟩, by decide, by decide, by decide⟩
  · exact congrArg (fun n => E (toBE16 n))
      (by decide : counterAt (seekTo (newCipher (toBE16 (2 ^ 64 - 2))) 32) = 2 ^ 64)
  · exact congrArg (fun n => E (toBE16 n))
      (by decide : counterAt (seekTo (newCipher (toBE16 (2 ^ 64 - 2))) 48) = 2 ^ 64 + 1)

/-- C4: with key = 16 zero bytes and nonce = 16 zero bytes, applying the
keystream to 64 zero bytes produces exactly the documented 64-byte keystream
66e94bd4...948bc1e0. -/
theorem zero_key_zero_nonce_keystream :
    (applyKeystream (aes128CtrE (List.replicate 16 0)) (newCipher (List.replicate 16 0))
      (List.replicate 64 0)).1 = zeroNonceExpected := by decide

/-- C5 counterexample: the plaintext as the specification describes it
(99 bytes of 0xff with 0x07 at offset 94) does not encrypt to the
repository's fixture ciphertext — the fixture plaintext has 102 bytes. -/
theorem poc_spec_plaintext_mismatch :
    (applyKeystream (aes128CtrE pocKey) (newCipher pocNonce) specDescribedPlaintext).1
      ≠ pocCiphertext := by
  intro h
  have hlen := congrArg List.length h
  have h1 : (applyKeystream (aes128CtrE pocKey) (newCipher pocNonce)
      specDescribedPlaintext).1.length = 99 := by
    show (xorFrom (aes128CtrE pocKey) (beVal pocNonce) 0 specDescribedPlaintext).length = 99
    rw [xorFrom_length]
    decide
  have h2 : pocCiphertext.length = 102 := by decide
  rw [h1, h2] at hlen
  exact absurd hlen (by decide)

/-- C5 (amended): with key 0dc1430e...77df and nonce 1aff...ff, applying the
keystream to the fixture plaintext of `compare_to_openssl_with_poc_values`
(102 bytes: 0xff everywhere except 0x07 at offset 60 and the tail
ca 7c d8 00 at offsets 98..101) produces byte for byte the fixture
ciphertext 6cfd499f...6858. -/
theorem poc_vector_ciphertext :
    (applyKeystream (aes128CtrE pocKey) (newCipher pocNonce) pocData).1
      = pocCiphertext := by decide

/-- C9: with the usage-example key and nonce, applying the keystream to
[1, 2, 3, 4, 5, 6, 7] yields [6, 245, 126, 124, 180, 146, 37], and a
subsequent `seek(0)` followed by `apply_keystream` restores the original
bytes. -/
theorem usage_example_roundtrip :
    (applyKeystream (aes128CtrE usageKey) (newCipher usageNonce) [1, 2, 3, 4, 5, 6, 7]).1
      = [6, 245, 126, 124, 180, 146, 37]
    ∧ (applyKeystream (aes128CtrE usageKey)
        (seekTo (applyKeystream (aes128CtrE usageKey) (newCipher usageNonce)
          [1, 2, 3, 4, 5, 6, 7]).2 0)
        (applyKeystream (aes128CtrE usageKey) (newCipher usageNonce)
          [1, 2, 3, 4, 5, 6, 7]).1).1
      = [1, 2, 3, 4, 5, 6, 7] := by
  exact ⟨by decide, by decide⟩

end StreamCiphers
